import Mathlib

/-!
Verification of the eyeSeeYou capture-to-delivery pipeline (Go backend).

This file gives a shallow embedding of the pipeline's core components:
the retry executor (`utils.RetryWithBackoff`), the S3 uploader with
verification and quarantine (`aws/s3_uploader.go`), the SNS publisher
(`aws/sns_publisher.go`), the CloudFront URL signer
(`aws/cloudfront_signer.go`), the configuration loader (`config`), and
the watcher's per-clip processing (`watcher.processVideo`).

External effects (S3/SNS/SSM network calls, the filesystem, the clock,
RSA) are represented by explicitly injected results; the Go control flow
around them is translated directly.  Durations are modelled in
nanoseconds (Go `time.Duration` ticks) as `Nat`; wall-clock instants are
`Nat` as well, with context cancellation modelled as an optional instant
`cancelAt` at which the context's done channel closes.
-/

/-- Go `error` values: either a leaf error message or an error produced by
`fmt.Errorf("...: %w", err)`, which keeps the wrapped inner error. -/
inductive GoErr where
  | base (msg : String)
  | wrap (msg : String) (inner : GoErr)
deriving DecidableEq, Repr

/-- Rendered error text: `fmt.Errorf("%s: %w", msg, inner)` renders as
`msg ++ ": " ++ inner`. -/
def GoErr.render : GoErr → String
  | .base m => m
  | .wrap m e => m ++ ": " ++ e.render

/-- Model of `utils.RetryConfig`: retry policy (delays in nanoseconds). -/
structure RetryConfig where
  MaxRetries : Nat
  InitialDelay : Nat
  MaxDelay : Nat
  OperationName : String
deriving DecidableEq, Repr

/-- Model of `utils.DefaultRetryConfig`: 4 retries (5 total attempts), delays
1s -> 2s -> 4s -> 8s. -/
def DefaultRetryConfig (operationName : String) : RetryConfig :=
  { MaxRetries := 4
    InitialDelay := 1000000000
    MaxDelay := 8000000000
    OperationName := operationName }

/-- The backoff delay slept after attempt `attempt` fails:
`delay := time.Duration(float64(InitialDelay) * math.Pow(2, attempt))`
capped at `MaxDelay`.  (The float64 product of a duration below 2^53 ns
with a power of two is exact, so the Nat formula coincides.) -/
def backoffDelay (cfg : RetryConfig) (attempt : Nat) : Nat :=
  min (cfg.InitialDelay * 2 ^ attempt) cfg.MaxDelay

/-- Whether the context's done channel is closed at instant `now`. -/
def ctxDone (cancelAt : Option Nat) (now : Nat) : Bool :=
  match cancelAt with
  | none => false
  | some t => t ≤ now

/-- Result of one `RetryWithBackoff` run: the returned error (`none` on
success), the number of times the operation closure was invoked, the
backoff delays that were slept to completion, and the instant at which
the call returned. -/
structure RetryRun where
  err : Option GoErr
  calls : Nat
  slept : List Nat
  tEnd : Nat
deriving DecidableEq, Repr

/-- Exhaustion error of `RetryWithBackoff`:
`fmt.Errorf("%s failed after %d attempts: %w", name, MaxRetries+1, lastErr)`. -/
def exhaustedErr (cfg : RetryConfig) (lastErr : GoErr) : GoErr :=
  .wrap (cfg.OperationName ++ " failed after " ++ toString (cfg.MaxRetries + 1)
    ++ " attempts") lastErr

/-- Cancellation error checked at the top of each loop iteration:
`fmt.Errorf("%s cancelled: %w", name, ctx.Err())`. -/
def cancelledErr (cfg : RetryConfig) (ctxErr : GoErr) : GoErr :=
  .wrap (cfg.OperationName ++ " cancelled") ctxErr

/-- Cancellation error taken inside the backoff `select`:
`fmt.Errorf("%s cancelled during backoff: %w", name, ctx.Err())`. -/
def cancelledBackoffErr (cfg : RetryConfig) (ctxErr : GoErr) : GoErr :=
  .wrap (cfg.OperationName ++ " cancelled during backoff") ctxErr

/-- Body of `utils.RetryWithBackoff`, one constructor case per loop turn.
`rem` counts the loop iterations still permitted by the loop condition
`attempt <= MaxRetries` (so `rem = MaxRetries + 1 - attempt` at every
reachable call), `attempt` is the Go loop counter, `now` the current
instant and `lastErr` the `lastErr` variable.  The operation `fn` is an
injected result table: `fn i` is the error returned by the `i`-th call
of the closure (`none` = success).  The `rem = 0` case is the fall-out
of the loop, returning the exhaustion error exactly as the code's final
`return` does. -/
def retryAux (cfg : RetryConfig) (cancelAt : Option Nat) (ctxErr : GoErr)
    (fn : Nat → Option GoErr) : Nat → Nat → Nat → Option GoErr → RetryRun
  | 0, _, now, lastErr =>
    { err := some (exhaustedErr cfg (lastErr.getD (.base "<nil>")))
      calls := 0, slept := [], tEnd := now }
  | rem + 1, attempt, now, _ =>
    if ctxDone cancelAt now then
      { err := some (cancelledErr cfg ctxErr), calls := 0, slept := [], tEnd := now }
    else
      match fn attempt with
      | none => { err := none, calls := 1, slept := [], tEnd := now }
      | some e =>
        if rem = 0 then
          -- attempt == MaxRetries: `break`, then the post-loop return fires
          { err := some (exhaustedErr cfg e), calls := 1, slept := [], tEnd := now }
        else
          let delay := backoffDelay cfg attempt
          if ctxDone cancelAt (now + delay - 1) then
            -- ctx.Done() fires strictly before the backoff timer: the select aborts
            { err := some (cancelledBackoffErr cfg ctxErr), calls := 1, slept := []
              tEnd := (cancelAt.getD now) }
          else
            let rest := retryAux cfg cancelAt ctxErr fn rem (attempt + 1)
              (now + delay) (some e)
            { err := rest.err, calls := rest.calls + 1
              slept := delay :: rest.slept, tEnd := rest.tEnd }

/-- Model of `utils.RetryWithBackoff`, started at instant `t0`. -/
def RetryWithBackoff (cfg : RetryConfig) (cancelAt : Option Nat) (ctxErr : GoErr)
    (fn : Nat → Option GoErr) (t0 : Nat) : RetryRun :=
  retryAux cfg cancelAt ctxErr fn (cfg.MaxRetries + 1) 0 t0 none

example :
    (RetryWithBackoff (DefaultRetryConfig "op") none (.base "ctx")
      (fun _ => some (.base "boom")) 0).calls = 5 := by decide

example :
    (RetryWithBackoff (DefaultRetryConfig "op") none (.base "ctx")
      (fun _ => some (.base "boom")) 0).slept =
      [1000000000, 2000000000, 4000000000, 8000000000] := by decide

example :
    (RetryWithBackoff (DefaultRetryConfig "op") none (.base "ctx")
      (fun i => if i = 2 then none else some (.base "boom")) 0).calls = 3 := by decide

theorem range_map_shift (f : Nat → Nat) (a r : Nat) :
    (List.range (r + 1)).map (fun i => f (a + i)) =
      f a :: (List.range r).map (fun i => f (a + 1 + i)) := by
  rw [List.range_succ_eq_map, List.map_cons, List.map_map]
  refine congrArg₂ _ (by simp) ?_
  apply List.map_congr_left
  intro x _
  simp only [Function.comp_apply]
  exact congrArg f (by omega)

theorem retryAux_allFail (cfg : RetryConfig) (ctxErr : GoErr)
    (fn : Nat → Option GoErr) (E : Nat → GoErr) (hfn : ∀ i, fn i = some (E i)) :
    ∀ (r attempt now : Nat) (lastErr : Option GoErr),
      retryAux cfg none ctxErr fn (r + 1) attempt now lastErr =
        { err := some (exhaustedErr cfg (E (attempt + r)))
          calls := r + 1
          slept := (List.range r).map (fun i => backoffDelay cfg (attempt + i))
          tEnd := now
            + ((List.range r).map (fun i => backoffDelay cfg (attempt + i))).sum } := by
  intro r
  induction r with
  | zero =>
    intro attempt now lastErr
    simp [retryAux, ctxDone, hfn attempt]
  | succ r ih =>
    intro attempt now lastErr
    have hstep : retryAux cfg none ctxErr fn (r + 1 + 1) attempt now lastErr =
        { err := (retryAux cfg none ctxErr fn (r + 1) (attempt + 1)
            (now + backoffDelay cfg attempt) (some (E attempt))).err
          calls := (retryAux cfg none ctxErr fn (r + 1) (attempt + 1)
            (now + backoffDelay cfg attempt) (some (E attempt))).calls + 1
          slept := backoffDelay cfg attempt :: (retryAux cfg none ctxErr fn (r + 1)
            (attempt + 1) (now + backoffDelay cfg attempt) (some (E attempt))).slept
          tEnd := (retryAux cfg none ctxErr fn (r + 1) (attempt + 1)
            (now + backoffDelay cfg attempt) (some (E attempt))).tEnd } := by
      simp [retryAux, ctxDone, hfn attempt]
    rw [hstep, ih (attempt + 1)]
    have h1 : attempt + 1 + r = attempt + (r + 1) := by omega
    rw [range_map_shift (fun i => backoffDelay cfg i) attempt r, List.sum_cons, h1]
    simp only [RetryRun.mk.injEq, true_and, and_true]
    omega

theorem retryAux_firstSuccess (cfg : RetryConfig) (ctxErr : GoErr)
    (fn : Nat → Option GoErr) :
    ∀ (j r attempt now : Nat) (lastErr : Option GoErr),
      j ≤ r →
      fn (attempt + j) = none →
      (∀ i, i < j → fn (attempt + i) ≠ none) →
      retryAux cfg none ctxErr fn (r + 1) attempt now lastErr =
        { err := none
          calls := j + 1
          slept := (List.range j).map (fun i => backoffDelay cfg (attempt + i))
          tEnd := now
            + ((List.range j).map (fun i => backoffDelay cfg (attempt + i))).sum } := by
  intro j
  induction j with
  | zero =>
    intro r attempt now lastErr hjr hsucc hfail
    simp only [Nat.add_zero] at hsucc
    simp [retryAux, ctxDone, hsucc]
  | succ j ih =>
    intro r attempt now lastErr hjr hsucc hfail
    obtain ⟨e, he⟩ : ∃ e, fn attempt = some e := by
      cases h : fn attempt with
      | none =>
        have := hfail 0 (by omega)
        simp only [Nat.add_zero] at this
        exact absurd h this
      | some e => exact ⟨e, rfl⟩
    obtain ⟨r', rfl⟩ : ∃ r', r = r' + 1 := ⟨r - 1, by omega⟩
    have hstep : retryAux cfg none ctxErr fn (r' + 1 + 1) attempt now lastErr =
        { err := (retryAux cfg none ctxErr fn (r' + 1) (attempt + 1)
            (now + backoffDelay cfg attempt) (some e)).err
          calls := (retryAux cfg none ctxErr fn (r' + 1) (attempt + 1)
            (now + backoffDelay cfg attempt) (some e)).calls + 1
          slept := backoffDelay cfg attempt :: (retryAux cfg none ctxErr fn (r' + 1)
            (attempt + 1) (now + backoffDelay cfg attempt) (some e)).slept
          tEnd := (retryAux cfg none ctxErr fn (r' + 1) (attempt + 1)
            (now + backoffDelay cfg attempt) (some e)).tEnd } := by
      simp [retryAux, ctxDone, he]
    have hsucc' : fn (attempt + 1 + j) = none := by
      have : attempt + 1 + j = attempt + (j + 1) := by omega
      rw [this]; exact hsucc
    have hfail' : ∀ i, i < j → fn (attempt + 1 + i) ≠ none := by
      intro i hi
      have : attempt + 1 + i = attempt + (i + 1) := by omega
      rw [this]; exact hfail (i + 1) (by omega)
    rw [hstep, ih r' (attempt + 1) (now + backoffDelay cfg attempt) (some e)
      (by omega) hsucc' hfail']
    rw [range_map_shift (fun i => backoffDelay cfg i) attempt j, List.sum_cons]
    simp only [RetryRun.mk.injEq, true_and, and_true]
    omega

theorem retryAux_slept_shape (cfg : RetryConfig) (ctxErr : GoErr)
    (fn : Nat → Option GoErr) :
    ∀ (r attempt now : Nat) (lastErr : Option GoErr),
      1 ≤ (retryAux cfg none ctxErr fn (r + 1) attempt now lastErr).calls ∧
      (retryAux cfg none ctxErr fn (r + 1) attempt now lastErr).slept =
        (List.range ((retryAux cfg none ctxErr fn (r + 1) attempt now lastErr).calls - 1)).map
          (fun i => backoffDelay cfg (attempt + i)) := by
  intro r
  induction r with
  | zero =>
    intro attempt now lastErr
    cases h : fn attempt with
    | none => simp [retryAux, ctxDone, h]
    | some e => simp [retryAux, ctxDone, h]
  | succ r ih =>
    intro attempt now lastErr
    cases h : fn attempt with
    | none => simp [retryAux, ctxDone, h]
    | some e =>
      have hstep : retryAux cfg none ctxErr fn (r + 1 + 1) attempt now lastErr =
          { err := (retryAux cfg none ctxErr fn (r + 1) (attempt + 1)
              (now + backoffDelay cfg attempt) (some e)).err
            calls := (retryAux cfg none ctxErr fn (r + 1) (attempt + 1)
              (now + backoffDelay cfg attempt) (some e)).calls + 1
            slept := backoffDelay cfg attempt :: (retryAux cfg none ctxErr fn (r + 1)
              (attempt + 1) (now + backoffDelay cfg attempt) (some e)).slept
            tEnd := (retryAux cfg none ctxErr fn (r + 1) (attempt + 1)
              (now + backoffDelay cfg attempt) (some e)).tEnd } := by
        simp [retryAux, ctxDone, h]
      rw [hstep]
      obtain ⟨h1, h2⟩ := ih (attempt + 1) (now + backoffDelay cfg attempt) (some e)
      refine ⟨by simp, ?_⟩
      simp only [h2, Nat.add_sub_cancel]
      obtain ⟨c, hc⟩ : ∃ c,
          (retryAux cfg none ctxErr fn (r + 1) (attempt + 1)
            (now + backoffDelay cfg attempt) (some e)).calls = c + 1 :=
        ⟨(retryAux cfg none ctxErr fn (r + 1) (attempt + 1)
          (now + backoffDelay cfg attempt) (some e)).calls - 1, by omega⟩
      rw [hc]
      simp only [Nat.add_sub_cancel]
      rw [range_map_shift (fun i => backoffDelay cfg i) attempt c]

/-- C7: for every retry policy, the delays actually slept by
`RetryWithBackoff` (absent cancellation) are exactly one per attempt that
was followed by another attempt, the `i`-th being
`min(InitialDelay * 2^i, MaxDelay)`; in particular no delay is slept
after the final attempt. -/
theorem retry_backoff_schedule (cfg : RetryConfig) (ctxErr : GoErr)
    (fn : Nat → Option GoErr) (t0 : Nat) :
    (RetryWithBackoff cfg none ctxErr fn t0).slept =
      (List.range ((RetryWithBackoff cfg none ctxErr fn t0).calls - 1)).map
        (fun i => min (cfg.InitialDelay * 2 ^ i) cfg.MaxDelay) := by
  have h := (retryAux_slept_shape cfg ctxErr fn cfg.MaxRetries 0 t0 none).2
  simp only [RetryWithBackoff]
  rw [h]
  apply List.map_congr_left
  intro x _
  simp [backoffDelay]

/-- C3: with no cancellation, if every call of the operation fails then
`RetryWithBackoff` makes exactly `MaxRetries + 1` calls and returns the
last underlying error wrapped with a message stating failure after
`MaxRetries + 1` attempts; if the operation first succeeds on call `k`
(with `k ≤ MaxRetries + 1`), exactly `k` calls are made and no error is
returned. -/
theorem retry_attempt_counts (cfg : RetryConfig) (ctxErr : GoErr)
    (fn : Nat → Option GoErr) (E : Nat → GoErr) (k : Nat) :
    ((∀ i, fn i = some (E i)) →
      (RetryWithBackoff cfg none ctxErr fn 0).calls = cfg.MaxRetries + 1 ∧
      (RetryWithBackoff cfg none ctxErr fn 0).err =
        some (GoErr.wrap (cfg.OperationName ++ " failed after "
          ++ toString (cfg.MaxRetries + 1) ++ " attempts") (E cfg.MaxRetries)))
    ∧ (1 ≤ k → k ≤ cfg.MaxRetries + 1 → fn (k - 1) = none →
      (∀ i, i < k - 1 → fn i ≠ none) →
      (RetryWithBackoff cfg none ctxErr fn 0).err = none ∧
      (RetryWithBackoff cfg none ctxErr fn 0).calls = k) := by
  constructor
  · intro hfn
    simp only [RetryWithBackoff]
    rw [retryAux_allFail cfg ctxErr fn E hfn cfg.MaxRetries 0 0 none]
    exact ⟨rfl, by simp [exhaustedErr]⟩
  · intro h1 h2 h3 h4
    simp only [RetryWithBackoff]
    rw [retryAux_firstSuccess cfg ctxErr fn (k - 1) cfg.MaxRetries 0 0 none
      (by omega) (by simpa using h3) (by simpa using h4)]
    exact ⟨rfl, by simp; omega⟩

theorem retry_attempt_counts_witness :
    ((RetryWithBackoff (DefaultRetryConfig "op") none (.base "ctx")
        (fun _ => some (.base "boom")) 0).calls = 4 + 1 ∧
      (RetryWithBackoff (DefaultRetryConfig "op") none (.base "ctx")
        (fun _ => some (.base "boom")) 0).err =
        some (GoErr.wrap ("op" ++ " failed after " ++ toString (4 + 1)
          ++ " attempts") (.base "boom")))
    ∧ ((RetryWithBackoff (DefaultRetryConfig "op") none (.base "ctx")
        (fun i => if i = 2 then none else some (.base "boom")) 0).err = none ∧
      (RetryWithBackoff (DefaultRetryConfig "op") none (.base "ctx")
        (fun i => if i = 2 then none else some (.base "boom")) 0).calls = 3) := by
  constructor
  · exact (retry_attempt_counts (DefaultRetryConfig "op") (.base "ctx")
      (fun _ => some (.base "boom")) (fun _ => .base "boom") 0).1 (fun i => rfl)
  · refine (retry_attempt_counts (DefaultRetryConfig "op") (.base "ctx")
      (fun i => if i = 2 then none else some (.base "boom")) (fun _ => .base "boom")
      3).2 (by decide) (by decide) (by decide) ?_
    intro i hi
    simp only [show (3 : Nat) - 1 = 2 from rfl] at hi
    simp [show i ≠ 2 by omega]

theorem string_append_left_cancel {a b c : String} (h : a ++ b = a ++ c) : b = c := by
  have h2 : (a ++ b).data = (a ++ c).data := by rw [h]
  rw [String.data_append, String.data_append] at h2
  exact String.ext (List.append_cancel_left h2)

theorem cancelled_ne_failed (s : String) :
    " cancelled" ≠ " failed after " ++ s ++ " attempts" := by
  intro h
  have h2 := congrArg (fun x => x.data[1]?) h
  simp only [String.data_append, List.append_assoc] at h2
  rw [List.getElem?_append] at h2
  simp at h2

theorem cancelled_backoff_ne_failed (s : String) :
    " cancelled during backoff" ≠ " failed after " ++ s ++ " attempts" := by
  intro h
  have h2 := congrArg (fun x => x.data[1]?) h
  simp only [String.data_append, List.append_assoc] at h2
  rw [List.getElem?_append] at h2
  simp at h2

/-- C6: if the cancellation signal is already set when a loop iteration
begins, `RetryWithBackoff` returns the "cancelled" error immediately,
making no operation call; if the signal becomes set during a backoff
sleep, the run returns the "cancelled during backoff" error at the
moment of cancellation, sleeping no further delay to completion and
making no further operation call; and both cancellation errors are
distinct from any exhaustion error. -/
theorem retry_cancellation (cfg : RetryConfig) (ctxErr : GoErr)
    (fn : Nat → Option GoErr) (r attempt now t : Nat) (lastErr : Option GoErr)
    (e e1 e2 : GoErr) :
    (t ≤ now →
      retryAux cfg (some t) ctxErr fn (r + 1) attempt now lastErr =
        { err := some (cancelledErr cfg ctxErr)
          calls := 0, slept := [], tEnd := now })
    ∧ (now < t → fn attempt = some e → 1 ≤ r →
      t < now + backoffDelay cfg attempt →
      retryAux cfg (some t) ctxErr fn (r + 1) attempt now lastErr =
        { err := some (cancelledBackoffErr cfg ctxErr)
          calls := 1, slept := [], tEnd := t })
    ∧ cancelledErr cfg e1 ≠ exhaustedErr cfg e2
    ∧ cancelledBackoffErr cfg e1 ≠ exhaustedErr cfg e2 := by
  refine ⟨?_, ?_, ?_, ?_⟩
  · intro ht
    simp [retryAux, ctxDone, ht]
  · intro ht hfn hr hdelay
    have h1 : ¬ (t ≤ now) := by omega
    have h2 : r ≠ 0 := by omega
    have h3 : t ≤ now + backoffDelay cfg attempt - 1 := by omega
    simp [retryAux, ctxDone, h1, h2, h3, hfn]
  · intro h
    rw [cancelledErr, exhaustedErr] at h
    have hmsg : cfg.OperationName ++ " cancelled" =
        cfg.OperationName ++ (" failed after "
          ++ toString (cfg.MaxRetries + 1) ++ " attempts") := by
      have := congrArg (fun x => match x with | GoErr.wrap m _ => m | _ => "") h
      simpa [String.append_assoc] using this
    exact cancelled_ne_failed (toString (cfg.MaxRetries + 1))
      (by simpa [String.append_assoc] using string_append_left_cancel hmsg)
  · intro h
    rw [cancelledBackoffErr, exhaustedErr] at h
    have hmsg : cfg.OperationName ++ " cancelled during backoff" =
        cfg.OperationName ++ (" failed after "
          ++ toString (cfg.MaxRetries + 1) ++ " attempts") := by
      have := congrArg (fun x => match x with | GoErr.wrap m _ => m | _ => "") h
      simpa [String.append_assoc] using this
    exact cancelled_backoff_ne_failed (toString (cfg.MaxRetries + 1))
      (by simpa [String.append_assoc] using string_append_left_cancel hmsg)

theorem retry_cancellation_witness :
    (retryAux (DefaultRetryConfig "op") (some 2) (.base "ctx")
        (fun _ => some (.base "boom")) (4 + 1) 0 3 none =
      { err := some (cancelledErr (DefaultRetryConfig "op") (.base "ctx"))
        calls := 0, slept := [], tEnd := 3 })
    ∧ (retryAux (DefaultRetryConfig "op") (some 7) (.base "ctx")
        (fun _ => some (.base "boom")) (4 + 1) 0 0 none =
      { err := some (cancelledBackoffErr (DefaultRetryConfig "op") (.base "ctx"))
        calls := 1, slept := [], tEnd := 7 })
    ∧ cancelledErr (DefaultRetryConfig "op") (.base "a")
        ≠ exhaustedErr (DefaultRetryConfig "op") (.base "b")
    ∧ cancelledBackoffErr (DefaultRetryConfig "op") (.base "a")
        ≠ exhaustedErr (DefaultRetryConfig "op") (.base "b") := by
  refine ⟨?_, ?_, ?_, ?_⟩
  · exact (retry_cancellation (DefaultRetryConfig "op") (.base "ctx")
      (fun _ => some (.base "boom")) 4 0 3 2 none (.base "boom") (.base "a")
      (.base "b")).1 (by decide)
  · exact (retry_cancellation (DefaultRetryConfig "op") (.base "ctx")
      (fun _ => some (.base "boom")) 4 0 0 7 none (.base "boom") (.base "a")
      (.base "b")).2.1 (by decide) rfl (by decide) (by decide)
  · exact (retry_cancellation (DefaultRetryConfig "op") (.base "ctx")
      (fun _ => some (.base "boom")) 4 0 0 7 none (.base "boom") (.base "a")
      (.base "b")).2.2.1
  · exact (retry_cancellation (DefaultRetryConfig "op") (.base "ctx")
      (fun _ => some (.base "boom")) 4 0 0 7 none (.base "boom") (.base "a")
      (.base "b")).2.2.2

/-- Go `filepath.Base` (unix): empty path gives ".", trailing slashes are
stripped, the last path element is returned, and an all-slash path gives
"/". -/
def filepathBase (p : String) : String :=
  if p = "" then "."
  else
    let cs := p.data.reverse.dropWhile (fun c => c = '/')
    if cs = [] then "/"
    else String.mk ((cs.takeWhile (fun c => c ≠ '/')).reverse)

example : filepathBase "/tmp/videos/clip.mp4" = "clip.mp4" := by decide
example : filepathBase "clip.mp4" = "clip.mp4" := by decide
example : filepathBase "/tmp/videos/" = "videos" := by decide
example : filepathBase "///" = "/" := by decide
example : filepathBase "" = "." := by decide

/-- What happened to the local clip file during an operation. -/
inductive FileFate where
  | unchanged
  | movedTo (dest : String)
  | deleted
deriving DecidableEq, Repr

/-- The quarantine directory (`failedUploadDir` in `s3_uploader.go`). -/
def failedUploadDir : String := "/tmp/videos-failed-upload"

/-- The retry policy of `verifyUpload`: 2 retries, 500ms initial delay,
2s ceiling. -/
def verifyRetryConfig (key : String) : RetryConfig :=
  { MaxRetries := 2
    InitialDelay := 500000000
    MaxDelay := 2000000000
    OperationName := "S3 verify " ++ key }

/-- Result of `S3Uploader.Upload`: the returned `(string, error)` pair and
the fate of the local file. -/
structure UploadOut where
  res : Except GoErr String
  fate : FileFate
deriving Repr

/-- Model of `S3Uploader.Upload`: derives the key `videos/<base name>`, runs the
transfer under the default retry policy, then (only if the transfer
succeeded) runs the `HeadObject` existence probe under
`verifyRetryConfig`; on probe failure the file is moved into the
quarantine directory via `moveToFailedDir` and an error is returned.
`transferFn i` / `probeFn i` are the injected per-attempt results of the
S3 `Upload` / `HeadObject` calls (`none` = success); `t0` is the instant
the call starts and `cancelAt` the context's cancellation instant.
(`filepath.Join` is modelled as string concatenation, exact for the
slash-free names produced by `filepathBase`.) -/
def Upload (cancelAt : Option Nat) (ctxErr : GoErr)
    (transferFn probeFn : Nat → Option GoErr) (t0 : Nat)
    (filePath : String) : UploadOut :=
  let filename := filepathBase filePath
  let key := "videos/" ++ filename
  let t := RetryWithBackoff (DefaultRetryConfig ("S3 upload " ++ filename))
    cancelAt ctxErr transferFn t0
  match t.err with
  | some e =>
    { res := .error (.wrap "failed to upload to S3 after retries" e)
      fate := .unchanged }
  | none =>
    let v := RetryWithBackoff (verifyRetryConfig key) cancelAt ctxErr probeFn t.tEnd
    match v.err with
    | some e =>
      { res := .error (.wrap "upload verification failed" e)
        fate := .movedTo (failedUploadDir ++ "/" ++ filename) }
    | none => { res := .ok key, fate := .unchanged }

/-- C1: `Upload` derives the remote key as `videos/` plus the file's base
name and returns it with success exactly when both the transfer retry
loop and the metadata-only existence probe (run under its own shorter
retry policy) report no error; if the probe fails after its retries the
local file is moved into the quarantine directory — never deleted — and
an error is returned; a transfer failure returns an error with the file
left in place. -/
theorem upload_key_verify_quarantine (cancelAt : Option Nat) (ctxErr : GoErr)
    (transferFn probeFn : Nat → Option GoErr) (t0 : Nat) (filePath : String) :
    (Upload cancelAt ctxErr transferFn probeFn t0 filePath).fate ≠ .deleted
    ∧ ((Upload cancelAt ctxErr transferFn probeFn t0 filePath).res =
        .ok ("videos/" ++ filepathBase filePath) ↔
      (RetryWithBackoff (DefaultRetryConfig ("S3 upload " ++ filepathBase filePath))
        cancelAt ctxErr transferFn t0).err = none ∧
      (RetryWithBackoff (verifyRetryConfig ("videos/" ++ filepathBase filePath))
        cancelAt ctxErr probeFn
        (RetryWithBackoff (DefaultRetryConfig ("S3 upload " ++ filepathBase filePath))
          cancelAt ctxErr transferFn t0).tEnd).err = none)
    ∧ (∀ e, (RetryWithBackoff (DefaultRetryConfig ("S3 upload " ++ filepathBase filePath))
        cancelAt ctxErr transferFn t0).err = some e →
      Upload cancelAt ctxErr transferFn probeFn t0 filePath =
        { res := .error (.wrap "failed to upload to S3 after retries" e)
          fate := .unchanged })
    ∧ (∀ e, (RetryWithBackoff (DefaultRetryConfig ("S3 upload " ++ filepathBase filePath))
        cancelAt ctxErr transferFn t0).err = none →
      (RetryWithBackoff (verifyRetryConfig ("videos/" ++ filepathBase filePath))
        cancelAt ctxErr probeFn
        (RetryWithBackoff (DefaultRetryConfig ("S3 upload " ++ filepathBase filePath))
          cancelAt ctxErr transferFn t0).tEnd).err = some e →
      Upload cancelAt ctxErr transferFn probeFn t0 filePath =
        { res := .error (.wrap "upload verification failed" e)
          fate := .movedTo (failedUploadDir ++ "/" ++ filepathBase filePath) }) := by
  refine ⟨?_, ?_, ?_, ?_⟩
  · cases h1 : (RetryWithBackoff (DefaultRetryConfig ("S3 upload " ++ filepathBase filePath))
        cancelAt ctxErr transferFn t0).err with
    | some e => simp [Upload, h1]
    | none =>
      cases h2 : (RetryWithBackoff (verifyRetryConfig ("videos/" ++ filepathBase filePath))
          cancelAt ctxErr probeFn
          (RetryWithBackoff (DefaultRetryConfig ("S3 upload " ++ filepathBase filePath))
            cancelAt ctxErr transferFn t0).tEnd).err with
      | some e => simp [Upload, h1, h2]
      | none => simp [Upload, h1, h2]
  · cases h1 : (RetryWithBackoff (DefaultRetryConfig ("S3 upload " ++ filepathBase filePath))
        cancelAt ctxErr transferFn t0).err with
    | some e => simp [Upload, h1]
    | none =>
      cases h2 : (RetryWithBackoff (verifyRetryConfig ("videos/" ++ filepathBase filePath))
          cancelAt ctxErr probeFn
          (RetryWithBackoff (DefaultRetryConfig ("S3 upload " ++ filepathBase filePath))
            cancelAt ctxErr transferFn t0).tEnd).err with
      | some e => simp [Upload, h1, h2]
      | none => simp [Upload, h1, h2]
  · intro e he
    simp [Upload, he]
  · intro e h1 h2
    simp [Upload, h1, h2]

theorem upload_key_verify_quarantine_witness :
    Upload none (.base "ctx") (fun _ => none) (fun _ => some (.base "404")) 0
        "/tmp/videos/clip.mp4" =
      { res := .error (.wrap "upload verification failed"
          (.wrap ("S3 verify " ++ "videos/" ++ filepathBase "/tmp/videos/clip.mp4"
            ++ " failed after " ++ toString (2 + 1) ++ " attempts") (.base "404")))
        fate := .movedTo (failedUploadDir ++ "/"
          ++ filepathBase "/tmp/videos/clip.mp4") } := by
  have h := (upload_key_verify_quarantine none (.base "ctx") (fun _ => none)
    (fun _ => some (.base "404")) 0 "/tmp/videos/clip.mp4").2.2.2
    (.wrap ("S3 verify " ++ "videos/" ++ filepathBase "/tmp/videos/clip.mp4"
      ++ " failed after " ++ toString (2 + 1) ++ " attempts") (.base "404"))
    (by decide) (by decide)
  exact h

/-- One step the watcher performs on behalf of a clip. -/
inductive ClipAction where
  | upload (path : String)
  | publish (key : String)
  | remove (path : String)
deriving DecidableEq, Repr

/-- Result of `FileWatcher.processVideo` for one clip. -/
structure ProcessOut where
  actions : List ClipAction
  fate : FileFate
deriving Repr

/-- Model of `FileWatcher.processVideo`: after the 1s settle sleep (elided from the
time model), upload the clip; on upload failure return without publishing
or deleting; on upload success publish the SNS notification — whose error
`pubErr` is only logged, never acted on — and then delete the local file
(`removeErr` is the injected result of `os.Remove`, whose failure is also
only logged). -/
def processVideo (cancelAt : Option Nat) (ctxErr : GoErr)
    (transferFn probeFn : Nat → Option GoErr) (pubErr : String → Option GoErr)
    (removeErr : Option GoErr) (t0 : Nat) (filePath : String) : ProcessOut :=
  let u := Upload cancelAt ctxErr transferFn probeFn t0 filePath
  match u.res with
  | .error _ => { actions := [.upload filePath], fate := u.fate }
  | .ok key =>
    { actions := [.upload filePath, .publish key, .remove filePath]
      fate := match removeErr with
        | none => .deleted
        | some _ => .unchanged }

/-- C4: if `Upload` succeeds the watcher publishes and then deletes the
local file, and neither the action sequence nor the file's fate depends
on the publish result (publish failure is logged only); if `Upload`
fails the watcher neither publishes nor deletes, leaving the file where
`Upload` left it. -/
theorem processVideo_cleanup_policy (cancelAt : Option Nat) (ctxErr : GoErr)
    (transferFn probeFn : Nat → Option GoErr) (pubErr pubErr2 : String → Option GoErr)
    (removeErr : Option GoErr) (t0 : Nat) (filePath : String) :
    (∀ key, (Upload cancelAt ctxErr transferFn probeFn t0 filePath).res = .ok key →
      (processVideo cancelAt ctxErr transferFn probeFn pubErr removeErr t0
        filePath).actions = [.upload filePath, .publish key, .remove filePath] ∧
      (removeErr = none →
        (processVideo cancelAt ctxErr transferFn probeFn pubErr removeErr t0
          filePath).fate = .deleted))
    ∧ (∀ e, (Upload cancelAt ctxErr transferFn probeFn t0 filePath).res = .error e →
      (processVideo cancelAt ctxErr transferFn probeFn pubErr removeErr t0
        filePath).actions = [.upload filePath] ∧
      (processVideo cancelAt ctxErr transferFn probeFn pubErr removeErr t0
        filePath).fate = (Upload cancelAt ctxErr transferFn probeFn t0 filePath).fate ∧
      (∀ k, ClipAction.publish k ∉ (processVideo cancelAt ctxErr transferFn probeFn
        pubErr removeErr t0 filePath).actions) ∧
      ClipAction.remove filePath ∉ (processVideo cancelAt ctxErr transferFn probeFn
        pubErr removeErr t0 filePath).actions)
    ∧ processVideo cancelAt ctxErr transferFn probeFn pubErr2 removeErr t0 filePath =
      processVideo cancelAt ctxErr transferFn probeFn pubErr removeErr t0 filePath := by
  refine ⟨?_, ?_, rfl⟩
  · intro key hk
    constructor
    · simp [processVideo, hk]
    · intro hrm
      simp [processVideo, hk, hrm]
  · intro e he
    refine ⟨by simp [processVideo, he], by simp [processVideo, he], ?_, ?_⟩
    · intro k
      simp [processVideo, he]
    · simp [processVideo, he]

theorem processVideo_cleanup_policy_witness :
    ((processVideo none (.base "ctx") (fun _ => none) (fun _ => none)
        (fun _ => some (.base "sns down")) none 0 "/tmp/videos/clip.mp4").actions =
      [.upload "/tmp/videos/clip.mp4", .publish ("videos/" ++ "clip.mp4"),
        .remove "/tmp/videos/clip.mp4"] ∧
    (processVideo none (.base "ctx") (fun _ => none) (fun _ => none)
        (fun _ => some (.base "sns down")) none 0 "/tmp/videos/clip.mp4").fate =
      .deleted)
    ∧ ((processVideo none (.base "ctx") (fun _ => some (.base "neterr"))
        (fun _ => none) (fun _ => none) none 0 "/tmp/videos/clip.mp4").actions =
      [.upload "/tmp/videos/clip.mp4"]) := by
  constructor
  · have h := (processVideo_cleanup_policy none (.base "ctx") (fun _ => none)
      (fun _ => none) (fun _ => some (.base "sns down"))
      (fun _ => some (.base "sns down")) none 0 "/tmp/videos/clip.mp4").1
      ("videos/" ++ "clip.mp4") rfl
    exact ⟨h.1, h.2 rfl⟩
  · have h := (processVideo_cleanup_policy none (.base "ctx")
      (fun _ => some (.base "neterr")) (fun _ => none) (fun _ => none)
      (fun _ => none) none 0 "/tmp/videos/clip.mp4").2.1
      (.wrap "failed to upload to S3 after retries"
        (.wrap ("S3 upload " ++ "clip.mp4" ++ " failed after " ++ toString (4 + 1)
          ++ " attempts") (.base "neterr"))) rfl
    exact h.1

/-- Constant `maxFailedUploadDirSize`: the 100 MB quarantine cap. -/
def maxFailedUploadDirSize : Nat := 100 * 1024 * 1024

/-- Total size of a directory's files (`getDirSize`), the directory being
modelled as a list of (name, size) entries. -/
def dirSize (dir : List (String × Nat)) : Nat := (dir.map Prod.snd).sum

/-- State effect of `moveToFailedDir` when every filesystem call succeeds:
if the quarantine directory's current total size already meets the cap,
every existing file is deleted (`clearDirectory`); then the new file is
renamed in (an existing entry of the same name is overwritten, as
`os.Rename` does). -/
def moveToFailedDirState (dir : List (String × Nat)) (fname : String)
    (fsize : Nat) : List (String × Nat) :=
  let dir1 := if maxFailedUploadDirSize ≤ dirSize dir then [] else dir
  (fname, fsize) :: dir1.filter (fun kv => kv.1 ≠ fname)

/-- C5 counterexample: with 100 MB − 1 bytes already quarantined,
inserting a 2-byte file pushes the total to 100 MB + 1 — at or above the
cap — yet no eviction happens: the directory does not end up holding only
the new file, and its total exceeds the cap.  (The code compares only the
pre-existing directory size against the cap, ignoring the incoming
file's size.) -/
theorem quarantine_cap_counterexample :
    maxFailedUploadDirSize ≤
      dirSize [("a.mp4", maxFailedUploadDirSize - 1)] + 2
    ∧ moveToFailedDirState [("a.mp4", maxFailedUploadDirSize - 1)] "b.mp4" 2 ≠
      [("b.mp4", 2)]
    ∧ maxFailedUploadDirSize <
      dirSize (moveToFailedDirState [("a.mp4", maxFailedUploadDirSize - 1)]
        "b.mp4" 2) := by
  refine ⟨by decide, by decide, by decide⟩

/-- C5 (amended): eviction triggers exactly when the pre-existing
quarantine total already meets or exceeds the cap — in that case the
directory afterwards holds only the new file; otherwise nothing is
evicted, so the post-insertion total may exceed the cap, though it always
stays below the cap plus the inserted file's size. -/
theorem quarantine_eviction_amended (dir : List (String × Nat)) (fname : String)
    (fsize : Nat) :
    (maxFailedUploadDirSize ≤ dirSize dir →
      moveToFailedDirState dir fname fsize = [(fname, fsize)])
    ∧ (dirSize dir < maxFailedUploadDirSize →
      dirSize (moveToFailedDirState dir fname fsize) ≤ dirSize dir + fsize)
    ∧ dirSize (moveToFailedDirState dir fname fsize) <
      maxFailedUploadDirSize + fsize := by
  have hfil : dirSize (dir.filter (fun kv => kv.1 ≠ fname)) ≤ dirSize dir :=
    List.Sublist.sum_le_sum ((List.filter_sublist dir).map Prod.snd)
      (fun _ _ => Nat.zero_le _)
  refine ⟨?_, ?_, ?_⟩
  · intro h
    simp [moveToFailedDirState, h]
  · intro h
    have hnot : ¬ maxFailedUploadDirSize ≤ dirSize dir := by omega
    simp only [moveToFailedDirState, if_neg hnot]
    simp only [dirSize, List.map_cons, List.sum_cons] at hfil h ⊢
    omega
  · by_cases h : maxFailedUploadDirSize ≤ dirSize dir
    · simp only [moveToFailedDirState, if_pos h]
      simp [dirSize, maxFailedUploadDirSize]
    · simp only [moveToFailedDirState, if_neg h]
      simp only [dirSize, List.map_cons, List.sum_cons] at hfil h ⊢
      omega

theorem quarantine_eviction_amended_witness :
    (maxFailedUploadDirSize ≤ dirSize [("old.mp4", maxFailedUploadDirSize)] →
      moveToFailedDirState [("old.mp4", maxFailedUploadDirSize)] "new.mp4" 7 =
        [("new.mp4", 7)])
    ∧ moveToFailedDirState [("old.mp4", maxFailedUploadDirSize)] "new.mp4" 7 =
      [("new.mp4", 7)] := by
  have h := quarantine_eviction_amended [("old.mp4", maxFailedUploadDirSize)]
    "new.mp4" 7
  exact ⟨h.1, h.1 (by decide)⟩

/-- Outcome bookkeeping of a successful `moveToFailedDir` call: whether
the eviction branch ran and whether `getDirSize` succeeded. -/
structure MoveOut where
  evicted : Bool
  sizeKnown : Bool
deriving DecidableEq, Repr

/-- Error/control flow of `moveToFailedDir` with injected results of its
filesystem calls: `mkdirErr` from `os.MkdirAll`, `sizeRes` from
`getDirSize`, `clearErr` from `clearDirectory` (its `os.ReadDir`; failed
individual deletions are only logged there), `renameErr` from
`os.Rename`.  A `getDirSize` failure is logged as a warning and the move
proceeds with no eviction check. -/
def moveToFailedDirFx (mkdirErr : Option GoErr) (sizeRes : Except GoErr Nat)
    (clearErr renameErr : Option GoErr) : Except GoErr MoveOut :=
  match mkdirErr with
  | some e => .error (.wrap "failed to create failed upload directory" e)
  | none =>
    let doRename (evicted sizeKnown : Bool) : Except GoErr MoveOut :=
      match renameErr with
      | some e => .error (.wrap "failed to move file" e)
      | none => .ok { evicted := evicted, sizeKnown := sizeKnown }
    match sizeRes with
    | .error _ => doRename false false
    | .ok dirSz =>
      if maxFailedUploadDirSize ≤ dirSz then
        match clearErr with
        | some e => .error (.wrap "failed to clear directory" e)
        | none => doRename true true
      else doRename false true

/-- C10: when `getDirSize` fails, `moveToFailedDir` performs no eviction
check and still attempts the rename (so the size cap is not enforced on
that path, and the call fails only if the rename itself does); and in
general an error return comes only from the mkdir, the eviction-time
clear, or the rename. -/
theorem moveToFailedDir_error_paths (mkdirErr : Option GoErr)
    (sizeRes : Except GoErr Nat) (clearErr renameErr : Option GoErr) :
    (∀ e, moveToFailedDirFx none (.error e) clearErr renameErr =
      (match renameErr with
        | some e2 => .error (.wrap "failed to move file" e2)
        | none => .ok { evicted := false, sizeKnown := false }))
    ∧ (∀ e, moveToFailedDirFx mkdirErr sizeRes clearErr renameErr = .error e →
      (∃ e2, mkdirErr = some e2
        ∧ e = .wrap "failed to create failed upload directory" e2)
      ∨ (∃ e2 dirSz, clearErr = some e2 ∧ sizeRes = .ok dirSz
        ∧ maxFailedUploadDirSize ≤ dirSz ∧ e = .wrap "failed to clear directory" e2)
      ∨ (∃ e2, renameErr = some e2 ∧ e = .wrap "failed to move file" e2)) := by
  constructor
  · intro e
    cases renameErr with
    | some e2 => simp [moveToFailedDirFx]
    | none => simp [moveToFailedDirFx]
  · intro e he
    rcases mkdirErr with _ | em
    · rcases hs : sizeRes with es | dirSz
      · rcases hr : renameErr with _ | er
        · simp [moveToFailedDirFx, hs, hr] at he
        · simp [moveToFailedDirFx, hs, hr] at he
          exact Or.inr (Or.inr ⟨er, rfl, he.symm⟩)
      · by_cases hcap : maxFailedUploadDirSize ≤ dirSz
        · rcases hc : clearErr with _ | ec
          · rcases hr : renameErr with _ | er
            · simp [moveToFailedDirFx, hs, hc, hr, hcap] at he
            · simp [moveToFailedDirFx, hs, hc, hr, hcap] at he
              exact Or.inr (Or.inr ⟨er, rfl, he.symm⟩)
          · simp [moveToFailedDirFx, hs, hc, hcap] at he
            exact Or.inr (Or.inl ⟨ec, dirSz, rfl, rfl, hcap, he.symm⟩)
        · rcases hr : renameErr with _ | er
          · simp [moveToFailedDirFx, hs, hr, hcap] at he
          · simp [moveToFailedDirFx, hs, hr, hcap] at he
            exact Or.inr (Or.inr ⟨er, rfl, he.symm⟩)
    · simp [moveToFailedDirFx] at he
      exact Or.inl ⟨em, rfl, he.symm⟩

theorem moveToFailedDir_error_paths_witness :
    (moveToFailedDirFx none (.error (.base "walk failed")) none none =
      .ok { evicted := false, sizeKnown := false })
    ∧ ((∃ e2, (none : Option GoErr) = some e2
        ∧ GoErr.wrap "failed to clear directory" (.base "readdir failed") =
          .wrap "failed to create failed upload directory" e2)
      ∨ (∃ e2 dirSz, (some (GoErr.base "readdir failed") : Option GoErr) = some e2
        ∧ (Except.ok maxFailedUploadDirSize : Except GoErr Nat) = .ok dirSz
        ∧ maxFailedUploadDirSize ≤ dirSz
        ∧ GoErr.wrap "failed to clear directory" (.base "readdir failed") =
          .wrap "failed to clear directory" e2)
      ∨ (∃ e2, (none : Option GoErr) = some e2
        ∧ GoErr.wrap "failed to clear directory" (.base "readdir failed") =
          .wrap "failed to move file" e2)) := by
  constructor
  · exact (moveToFailedDir_error_paths none (.error (.base "walk failed")) none
      none).1 (.base "walk failed")
  · exact (moveToFailedDir_error_paths none (.ok maxFailedUploadDirSize)
      (some (.base "readdir failed")) none).2
      (.wrap "failed to clear directory" (.base "readdir failed")) rfl

/-- Model of `config.getEnv`: environment lookup with a fallback default (Go's
`os.Getenv` returns the empty string for unset variables, so "missing"
and "set to empty" coincide). -/
def getEnvD (env : String → String) (key dflt : String) : String :=
  if env key = "" then dflt else env key

/-- Model of `config.Config`. -/
structure Config where
  AWSRegion : String
  S3Bucket : String
  SNSTopicARN : String
  VideoDir : String
  CloudFrontDomain : String
deriving DecidableEq, Repr

/-- Model of `config.LoadConfig` over an injected environment. -/
def LoadConfig (env : String → String) : Except GoErr Config :=
  let cfg : Config :=
    { AWSRegion := getEnvD env "AWS_REGION" "ap-southeast-2"
      S3Bucket := getEnvD env "S3_BUCKET" ""
      SNSTopicARN := getEnvD env "SNS_TOPIC_ARN" ""
      VideoDir := getEnvD env "VIDEO_DIR" "/tmp/videos"
      CloudFrontDomain := getEnvD env "CLOUDFRONT_DOMAIN" "" }
  if cfg.S3Bucket = "" then
    .error (.base "S3_BUCKET environment variable is required")
  else if cfg.SNSTopicARN = "" then
    .error (.base "SNS_TOPIC_ARN environment variable is required")
  else if cfg.CloudFrontDomain = "" then
    .error (.base "CLOUDFRONT_DOMAIN environment variable is required")
  else .ok cfg

/-- The SSM parameter name holding the CloudFront signing key: a constant
in `cloudfront_signer.go`, not read from the environment. -/
def cloudFrontPrivateKeyParam : String := "/eyeseeyou/cloudfront-private-key"

/-- An environment with bucket, topic and domain set but region and video
directory missing. -/
def envNoRegion : String → String := fun k =>
  if k = "S3_BUCKET" then "bucket"
  else if k = "SNS_TOPIC_ARN" then "topic"
  else if k = "CLOUDFRONT_DOMAIN" then "domain"
  else ""

/-- C9 counterexample: with the region (and the watched-directory path)
missing from the environment, `LoadConfig` still succeeds, falling back
to built-in defaults — contradicting the claim that configuration loading
fails whenever the region (or any of the six listed values) is missing.
No secret-store key path is read from the environment at all (it is the
constant `cloudFrontPrivateKeyParam`). -/
theorem loadConfig_counterexample :
    envNoRegion "AWS_REGION" = "" ∧ envNoRegion "VIDEO_DIR" = ""
    ∧ LoadConfig envNoRegion = .ok
      { AWSRegion := "ap-southeast-2", S3Bucket := "bucket"
        SNSTopicARN := "topic", VideoDir := "/tmp/videos"
        CloudFrontDomain := "domain" } := by
  exact ⟨rfl, rfl, rfl⟩

/-- C9 (amended): `LoadConfig` fails exactly when the bucket name, the
topic identifier or the serving domain is missing from the environment;
the region and the watched directory fall back to the defaults
`ap-southeast-2` and `/tmp/videos` when missing, and the secret-store
path of the signing key is a hard-coded constant rather than
configuration. -/
theorem loadConfig_required_fields (env : String → String) :
    ((∃ e, LoadConfig env = .error e) ↔
      (env "S3_BUCKET" = "" ∨ env "SNS_TOPIC_ARN" = ""
        ∨ env "CLOUDFRONT_DOMAIN" = ""))
    ∧ (∀ c, LoadConfig env = .ok c →
      c.AWSRegion = (if env "AWS_REGION" = "" then "ap-southeast-2"
        else env "AWS_REGION")
      ∧ c.VideoDir = (if env "VIDEO_DIR" = "" then "/tmp/videos"
        else env "VIDEO_DIR"))
    ∧ cloudFrontPrivateKeyParam = "/eyeseeyou/cloudfront-private-key" := by
  refine ⟨?_, ?_, rfl⟩
  · by_cases h1 : env "S3_BUCKET" = ""
    · simp [LoadConfig, getEnvD, h1]
    · by_cases h2 : env "SNS_TOPIC_ARN" = ""
      · simp [LoadConfig, getEnvD, h1, h2]
      · by_cases h3 : env "CLOUDFRONT_DOMAIN" = ""
        · simp [LoadConfig, getEnvD, h1, h2, h3]
        · simp [LoadConfig, getEnvD, h1, h2, h3]
  · intro c hc
    by_cases h1 : env "S3_BUCKET" = "" <;>
      by_cases h2 : env "SNS_TOPIC_ARN" = "" <;>
        by_cases h3 : env "CLOUDFRONT_DOMAIN" = "" <;>
          simp [LoadConfig, getEnvD, h1, h2, h3] at hc <;>
            simp [← hc, getEnvD]

theorem loadConfig_required_fields_witness :
    ((∃ e, LoadConfig (fun _ => "") = .error e) ↔
      ((fun _ => "" : String → String) "S3_BUCKET" = ""
        ∨ (fun _ => "" : String → String) "SNS_TOPIC_ARN" = ""
        ∨ (fun _ => "" : String → String) "CLOUDFRONT_DOMAIN" = ""))
    ∧ (∃ e, LoadConfig (fun _ => "") = .error e)
    ∧ (LoadConfig envNoRegion = .ok
        { AWSRegion := "ap-southeast-2", S3Bucket := "bucket"
          SNSTopicARN := "topic", VideoDir := "/tmp/videos"
          CloudFrontDomain := "domain" } →
      Config.AWSRegion
        { AWSRegion := "ap-southeast-2", S3Bucket := "bucket"
          SNSTopicARN := "topic", VideoDir := "/tmp/videos"
          CloudFrontDomain := "domain" } =
        (if envNoRegion "AWS_REGION" = "" then "ap-southeast-2"
          else envNoRegion "AWS_REGION")) := by
  refine ⟨(loadConfig_required_fields (fun _ => "")).1, ?_, ?_⟩
  · exact (loadConfig_required_fields (fun _ => "")).1.mpr (Or.inl rfl)
  · intro hc
    exact ((loadConfig_required_fields envNoRegion).2.1 _ hc).1


/-- UTF-8 encoding of one character, as the bytes Go iterates over when
percent-escaping a string. -/
def utf8Bytes (c : Char) : List Nat :=
  let n := c.toNat
  if n < 0x80 then [n]
  else if n < 0x800 then [0xC0 + n / 64, 0x80 + n % 64]
  else if n < 0x10000 then
    [0xE0 + n / 4096, 0x80 + (n / 64) % 64, 0x80 + n % 64]
  else
    [0xF0 + n / 262144, 0x80 + (n / 4096) % 64, 0x80 + (n / 64) % 64, 0x80 + n % 64]

/-- Uppercase hex digit, as used by Go's URL escaping. -/
def hexUpper (n : Nat) : Char := "0123456789ABCDEF".data.getD n '0'

/-- Characters Go leaves unescaped in a query component: alphanumerics and
`-._~`. -/
def isQueryUnreserved (c : Char) : Bool :=
  c.isAlphanum || c = '-' || c = '_' || c = '.' || c = '~'

/-- Go `url.QueryEscape` for one character: unreserved kept, space becomes
`+`, anything else percent-encoded byte by byte. -/
def queryEscapeChar (c : Char) : String :=
  if isQueryUnreserved c then String.mk [c]
  else if c = ' ' then "+"
  else String.join ((utf8Bytes c).map
    (fun b => String.mk ['%', hexUpper (b / 16), hexUpper (b % 16)]))

/-- Go `url.QueryEscape`. -/
def queryEscape (s : String) : String := String.join (s.data.map queryEscapeChar)

example : queryEscape "a b/c" = "a+b%2Fc" := by decide

/-- Go `url.Values` (`map[string][]string`), modelled as an association
list; the keys of a list representing an actual Go map are pairwise
distinct. -/
abbrev Values := List (String × List String)

/-- Model of `Values.Set`: replace the key's value list with the singleton `[v]`,
inserting the key if absent. -/
def valuesSet : Values → String → String → Values
  | [], k, v => [(k, [v])]
  | kv :: rest, k, v =>
    if kv.1 = k then (k, [v]) :: rest else kv :: valuesSet rest k v

/-- Lookup of a key's value list. -/
def valuesGet? : Values → String → Option (List String)
  | [], _ => none
  | kv :: rest, k => if kv.1 = k then some kv.2 else valuesGet? rest k

theorem valuesGet_set_self (vs : Values) (k v : String) :
    valuesGet? (valuesSet vs k v) k = some [v] := by
  induction vs with
  | nil => simp [valuesSet, valuesGet?]
  | cons kv rest ih =>
    by_cases h : kv.1 = k
    · simp [valuesSet, valuesGet?, h]
    · simp [valuesSet, valuesGet?, h, ih]

theorem valuesGet_set_other (vs : Values) (k v k2 : String) (h : k2 ≠ k) :
    valuesGet? (valuesSet vs k v) k2 = valuesGet? vs k2 := by
  induction vs with
  | nil =>
    simp only [valuesSet, valuesGet?]
    rw [if_neg (fun he => h he.symm)]
  | cons kv rest ih =>
    by_cases hk : kv.1 = k
    · simp only [valuesSet, if_pos hk, valuesGet?]
      rw [if_neg (fun he => h he.symm), if_neg (fun he => h (he.symm.trans hk))]
    · simp only [valuesSet, if_neg hk, valuesGet?]
      by_cases hk2 : kv.1 = k2
      · rw [if_pos hk2, if_pos hk2]
      · rw [if_neg hk2, if_neg hk2]
        exact ih

/-- Byte-order comparison of character lists (for UTF-8 text, identical to
the byte order `sort.Strings` uses). -/
def charsLe : List Char → List Char → Bool
  | [], _ => true
  | _ :: _, [] => false
  | a :: as, b :: bs =>
    if a.toNat < b.toNat then true
    else if b.toNat < a.toNat then false
    else charsLe as bs

/-- Insertion into a key-sorted association list. -/
def insertSorted (kv : String × List String) : Values → Values
  | [] => [kv]
  | kv2 :: rest =>
    if charsLe kv.1.data kv2.1.data then kv :: kv2 :: rest
    else kv2 :: insertSorted kv rest

/-- Sort by key, modelling the sorted-key iteration of `Values.Encode`
over a Go map's (distinct) keys. -/
def sortByKey : Values → Values
  | [] => []
  | kv :: rest => insertSorted kv (sortByKey rest)

/-- Model of `Values.Encode`: keys in sorted order, every key and value
query-escaped, pairs joined with `&`. -/
def valuesEncode (vs : Values) : String :=
  String.intercalate "&" (((sortByKey vs).map
    (fun kv => kv.2.map (fun v => queryEscape kv.1 ++ "=" ++ queryEscape v))).flatten)

example :
    valuesEncode [("b c", ["x/y"]), ("a", ["1", "2"])] =
      "a=1&a=2&b+c=x%2Fy" := by decide

/-- A URL after `url.Parse` succeeded (on a parse failure `SignURL`
errors before any signing); `query` is the parsed form of the raw query
string as `url.URL.Query()` returns it. -/
structure ParsedURL where
  scheme : String
  host : String
  path : String
  query : Values
deriving Repr

/-- Model of `url.URL.String()` for the URLs this pipeline builds, with the raw
query re-encoded from `query`. -/
def urlString (u : ParsedURL) : String :=
  u.scheme ++ "://" ++ u.host ++ u.path
    ++ (if valuesEncode u.query = "" then "" else "?" ++ valuesEncode u.query)

/-- Constant `cloudFrontKeyPairID`, the configured public key identifier. -/
def cloudFrontKeyPairID : String := "KB3JCDFGZQN4L"

/-- Constant `urlExpirationDuration` in seconds: 30 days. -/
def urlExpirationSeconds : Nat := 30 * 24 * 3600

/-- The CloudFront policy statement exactly as `SignURL` formats it. -/
def policyFor (rawURL : String) (expires : Nat) : String :=
  "\x7b\"Statement\":[\x7b\"Resource\":\"" ++ rawURL
    ++ "\",\"Condition\":\x7b\"DateLessThan\":\x7b\"AWS:EpochTime\":"
    ++ toString expires ++ "\x7d\x7d\x7d]\x7d"

/-- Character of the standard base64 alphabet. -/
def b64Char (n : Nat) : Char :=
  "ABCDEFGHIJKLMNOPQRSTUVWXYZabcdefghijklmnopqrstuvwxyz0123456789+/".data.getD n 'A'

/-- Model of `base64.StdEncoding.EncodeToString` over a byte list. -/
def base64Encode : List Nat → String
  | [] => ""
  | [a] => String.mk [b64Char (a / 4), b64Char ((a % 4) * 16), '=', '=']
  | [a, b] =>
    String.mk [b64Char (a / 4), b64Char ((a % 4) * 16 + b / 16),
      b64Char ((b % 16) * 4), '=']
  | a :: b :: c :: rest =>
    String.mk [b64Char (a / 4), b64Char ((a % 4) * 16 + b / 16),
      b64Char ((b % 16) * 4 + c / 64), b64Char (c % 64)] ++ base64Encode rest

example : base64Encode [77, 97, 110] = "TWFu" := by decide
example : base64Encode [77, 97] = "TWE=" := by decide

/-- The URL-safe remapping `SignURL` applies to the base64 signature:
`+` to `-`, `=` to `_`, `/` to `~`.  (The three sequential
`strings.ReplaceAll` calls of the code act on pairwise distinct
characters whose replacements are never themselves replaced, so one
character-wise pass is the same function.) -/
def urlSafeRemap (s : String) : String :=
  String.mk (s.data.map (fun c =>
    if c = '+' then '-' else if c = '=' then '_' else if c = '/' then '~' else c))

/-- Model of `CloudFrontSigner.signPolicy`: sign the policy and make the base64
text URL-safe.  `rsaSign` is the injected RSA-SHA1 `SignPKCS1v15`
primitive (hashing included), returning the signature bytes. -/
def signPolicy (rsaSign : String → Except GoErr (List Nat))
    (policy : String) : Except GoErr String :=
  match rsaSign policy with
  | .error e => .error (.wrap "failed to sign" e)
  | .ok sig => .ok (urlSafeRemap (base64Encode sig))

/-- The query of a signed URL: the original query with `Expires`,
`Signature` and `Key-Pair-Id` set. -/
def signedQuery (q : Values) (expires : Nat) (signature : String) : Values :=
  valuesSet (valuesSet (valuesSet q "Expires" (toString expires))
    "Signature" signature) "Key-Pair-Id" cloudFrontKeyPairID

/-- Model of `CloudFrontSigner.SignURL` on a URL that parsed as `u` from the raw
text `rawURL`: computes the expiry, formats the policy over the raw URL
text, signs it, and sets the three query parameters on the parsed URL
(whose re-encoded form Go then renders with `String()`). -/
def SignURL (rsaSign : String → Except GoErr (List Nat)) (now : Nat)
    (rawURL : String) (u : ParsedURL) : Except GoErr ParsedURL :=
  let expirationTime := now + urlExpirationSeconds
  let policy := policyFor rawURL expirationTime
  match signPolicy rsaSign policy with
  | .error e => .error (.wrap "failed to sign policy" e)
  | .ok signature =>
    .ok { u with query := signedQuery u.query expirationTime signature }

/-- C2: when the RSA primitive signs the policy, `SignURL` succeeds and
returns the same URL (scheme, host, path unchanged) whose query now binds
`Expires` to issuance time plus 30 days, `Signature` to the URL-safe
base64 (with `+`,`=`,`/` remapped to `-`,`_`,`~`) of the RSA signature of
the exact policy statement over the raw URL and that expiry, and
`Key-Pair-Id` to the configured key identifier, while every other
pre-existing query parameter keeps its values. -/
theorem signURL_appends_signed_params (rsaSign : String → Except GoErr (List Nat))
    (now : Nat) (rawURL : String) (u : ParsedURL) (sig : List Nat)
    (hsig : rsaSign (policyFor rawURL (now + urlExpirationSeconds)) = .ok sig) :
    SignURL rsaSign now rawURL u =
      .ok { u with
            query := signedQuery u.query (now + urlExpirationSeconds)
              (urlSafeRemap (base64Encode sig)) }
    ∧ urlExpirationSeconds = 30 * 24 * 3600
    ∧ policyFor rawURL (now + urlExpirationSeconds) =
      "\x7b\"Statement\":[\x7b\"Resource\":\"" ++ rawURL
        ++ "\",\"Condition\":\x7b\"DateLessThan\":\x7b\"AWS:EpochTime\":"
        ++ toString (now + urlExpirationSeconds) ++ "\x7d\x7d\x7d]\x7d"
    ∧ (∀ u2, SignURL rsaSign now rawURL u = .ok u2 →
      u2.scheme = u.scheme ∧ u2.host = u.host ∧ u2.path = u.path
      ∧ valuesGet? u2.query "Expires" = some [toString (now + urlExpirationSeconds)]
      ∧ valuesGet? u2.query "Signature" = some [urlSafeRemap (base64Encode sig)]
      ∧ valuesGet? u2.query "Key-Pair-Id" = some [cloudFrontKeyPairID]
      ∧ (∀ k2, k2 ≠ "Expires" → k2 ≠ "Signature" → k2 ≠ "Key-Pair-Id" →
        valuesGet? u2.query k2 = valuesGet? u.query k2)) := by
  have hmain : SignURL rsaSign now rawURL u =
      .ok { u with
            query := signedQuery u.query (now + urlExpirationSeconds)
              (urlSafeRemap (base64Encode sig)) } := by
    simp [SignURL, signPolicy, hsig]
  refine ⟨hmain, rfl, rfl, ?_⟩
  intro u2 h2
  rw [hmain] at h2
  injection h2 with h2
  subst h2
  refine ⟨rfl, rfl, rfl, ?_, ?_, valuesGet_set_self _ _ _, ?_⟩
  · rw [signedQuery, valuesGet_set_other _ _ _ _ (by decide),
      valuesGet_set_other _ _ _ _ (by decide), valuesGet_set_self]
  · rw [signedQuery, valuesGet_set_other _ _ _ _ (by decide), valuesGet_set_self]
  · intro k2 hk1 hk2 hk3
    rw [signedQuery, valuesGet_set_other _ _ _ _ hk3, valuesGet_set_other _ _ _ _ hk2,
      valuesGet_set_other _ _ _ _ hk1]

theorem signURL_appends_signed_params_witness :
    SignURL (fun _ => .ok [0, 0, 62]) 1000
        "https://d.cloudfront.net/videos/x.mp4?a=b"
        { scheme := "https", host := "d.cloudfront.net", path := "/videos/x.mp4"
          query := [("a", ["b"])] } =
      .ok { scheme := "https", host := "d.cloudfront.net",
            path := "/videos/x.mp4",
            query := signedQuery [("a", ["b"])] (1000 + urlExpirationSeconds)
              (urlSafeRemap (base64Encode [0, 0, 62])) } :=
  (signURL_appends_signed_params (fun _ => .ok [0, 0, 62]) 1000
    "https://d.cloudfront.net/videos/x.mp4?a=b"
    { scheme := "https", host := "d.cloudfront.net", path := "/videos/x.mp4"
      query := [("a", ["b"])] } [0, 0, 62] rfl).1

example : urlSafeRemap (base64Encode [0, 0, 62]) = "AAA-" := by decide

example :
    signedQuery [("a", ["b"])] 2593000 "AAA-" =
      [("a", ["b"]), ("Expires", ["2593000"]), ("Signature", ["AAA-"]),
        ("Key-Pair-Id", ["KB3JCDFGZQN4L"])] := by decide

/-- Two-digit zero-padded decimal, as Go's time formatting renders month,
day, hour, minute and second. -/
def pad2 (n : Nat) : String := if n < 10 then "0" ++ toString n else toString n

/-- Four-digit zero-padded decimal for the year. -/
def pad4 (n : Nat) : String :=
  if n < 10 then "000" ++ toString n
  else if n < 100 then "00" ++ toString n
  else if n < 1000 then "0" ++ toString n
  else toString n

/-- Civil date from days since 1970-01-01 (the standard era-based
conversion used by time libraries; `doe - doe / 146097` keeps the term of
the reference algorithm although `doe < 146097` makes it zero). -/
def civilFromDays (z : Nat) : Nat × Nat × Nat :=
  let z2 := z + 719468
  let era := z2 / 146097
  let doe := z2 % 146097
  let yoe := (doe - doe / 1460 + doe / 36524 - doe / 146097) / 365
  let y := yoe + era * 400
  let doy := doe - (365 * yoe + yoe / 4 - yoe / 100)
  let mp := (5 * doy + 2) / 153
  let d := doy - (153 * mp + 2) / 5 + 1
  let m := if mp < 10 then mp + 3 else mp - 9
  (if m ≤ 2 then y + 1 else y, m, d)

/-- Model of `time.Time.UTC().Format(time.RFC3339)` for a whole-second UTC instant
`now` given as Unix seconds: `YYYY-MM-DDThh:mm:ssZ`.  (Models the Go
standard library's formatting, which the publisher calls.) -/
def formatRFC3339 (now : Nat) : String :=
  let days := now / 86400
  let secs := now % 86400
  let ymd := civilFromDays days
  pad4 ymd.1 ++ "-" ++ pad2 ymd.2.1 ++ "-" ++ pad2 ymd.2.2 ++ "T"
    ++ pad2 (secs / 3600) ++ ":" ++ pad2 (secs % 3600 / 60) ++ ":"
    ++ pad2 (secs % 60) ++ "Z"

example : formatRFC3339 0 = "1970-01-01T00:00:00Z" := by decide
example : formatRFC3339 1735689600 = "2025-01-01T00:00:00Z" := by decide
example : formatRFC3339 253402300799 = "9999-12-31T23:59:59Z" := by decide

/-- Shape check for an ISO-8601 / RFC3339 UTC timestamp with seconds
precision: `YYYY-MM-DDThh:mm:ssZ`. -/
def isISO8601UTC (s : String) : Bool :=
  match s.data with
  | [y1, y2, y3, y4, c1, m1, m2, c2, d1, d2, t, h1, h2, c3, i1, i2, c4, s1, s2, z] =>
    y1.isDigit && y2.isDigit && y3.isDigit && y4.isDigit && c1 == '-'
      && m1.isDigit && m2.isDigit && c2 == '-' && d1.isDigit && d2.isDigit
      && t == 'T' && h1.isDigit && h2.isDigit && c3 == ':' && i1.isDigit
      && i2.isDigit && c4 == ':' && s1.isDigit && s2.isDigit && z == 'Z'
  | _ => false

example : isISO8601UTC (formatRFC3339 1735689600) = true := by decide

/-- Lowercase hex digit, as used by Go's JSON `\u00xx` escapes. -/
def hexLower (n : Nat) : Char := "0123456789abcdef".data.getD n '0'

/-- Go `encoding/json` string escaping for one character (HTML escaping
on, as `json.Marshal` defaults to). -/
def jsonEscapeChar (c : Char) : String :=
  if c = '"' then "\\\""
  else if c = '\\' then "\\\\"
  else if c = '\n' then "\\n"
  else if c = '\r' then "\\r"
  else if c = '\t' then "\\t"
  else if c = '<' then "\\u003c"
  else if c = '>' then "\\u003e"
  else if c = '&' then "\\u0026"
  else if c.toNat < 0x20 then
    "\\u00" ++ String.mk [hexLower (c.toNat / 16), hexLower (c.toNat % 16)]
  else if c.toNat = 0x2028 then "\\u2028"
  else if c.toNat = 0x2029 then "\\u2029"
  else String.mk [c]

/-- Go `encoding/json` escaping of a string body. -/
def jsonEscape (s : String) : String := String.join (s.data.map jsonEscapeChar)

/-- Model of `json.Marshal` of a `VideoNotification`, whose fields marshal in
declaration order with the struct's JSON tags. -/
def videoNotificationJSON (s3Key timestamp eventType cfURL : String) : String :=
  "\x7b\"s3_key\":\"" ++ jsonEscape s3Key ++ "\",\"timestamp\":\""
    ++ jsonEscape timestamp ++ "\",\"event_type\":\"" ++ jsonEscape eventType
    ++ "\",\"cloudfront_url\":\"" ++ jsonEscape cfURL ++ "\"\x7d"

example :
    videoNotificationJSON "videos/x.mp4" "2025-01-01T00:00:00Z"
      "human_detected" "https://d/x.mp4" =
    "\x7b\"s3_key\":\"videos/x.mp4\",\"timestamp\":\"2025-01-01T00:00:00Z\",\"event_type\":\"human_detected\",\"cloudfront_url\":\"https://d/x.mp4\"\x7d" := by
  decide

/-- Result of `SNSPublisher.Publish`: the JSON message handed to the SNS
publish retry loop (none if signing failed before a message was built)
and the returned error. -/
structure PublishOut where
  message : Option String
  res : Except GoErr Unit
deriving Repr

/-- Model of `SNSPublisher.Publish`: builds the public URL
`https://<domain>/<key>`, signs it via the CloudFront signer (`sign`, the
injected signer call; failure aborts before any message exists), builds
the notification for the current instant `now`, marshals it, and
publishes it to SNS under the default retry policy with per-attempt
results `pubFn`. -/
def Publish (sign : String → Except GoErr String) (now : Nat)
    (pubFn : Nat → Option GoErr) (cancelAt : Option Nat) (ctxErr : GoErr)
    (t0 : Nat) (s3Key cloudFrontDomain : String) : PublishOut :=
  let cloudFrontURL := "https://" ++ cloudFrontDomain ++ "/" ++ s3Key
  match sign cloudFrontURL with
  | .error e =>
    { message := none, res := .error (.wrap "failed to sign CloudFront URL" e) }
  | .ok signedURL =>
    let message := videoNotificationJSON s3Key (formatRFC3339 now)
      "human_detected" signedURL
    let r := RetryWithBackoff (DefaultRetryConfig "SNS publish") cancelAt ctxErr pubFn t0
    { message := some message
      res := match r.err with
        | some e => .error (.wrap "failed to publish to SNS after retries" e)
        | none => .ok () }

/-- C8: `Publish` signs `https://<domain>/<key>`; if signing fails it
returns an error and hands no message to the transport (so no
notification with an unsigned URL is ever emitted); if signing succeeds
the message it publishes is exactly the JSON object with fields `s3_key`
(the key), `timestamp` (the RFC3339 UTC rendering of the current time —
an ISO-8601 UTC string whenever the formatter's output passes the
`isISO8601UTC` shape check), `event_type` `"human_detected"`, and
`cloudfront_url` (the signed URL). -/
theorem publish_payload_and_sign_failure (sign : String → Except GoErr String)
    (now : Nat) (pubFn : Nat → Option GoErr) (cancelAt : Option Nat)
    (ctxErr : GoErr) (t0 : Nat) (s3Key domain : String) :
    (∀ e, sign ("https://" ++ domain ++ "/" ++ s3Key) = .error e →
      Publish sign now pubFn cancelAt ctxErr t0 s3Key domain =
        { message := none, res := .error (.wrap "failed to sign CloudFront URL" e) })
    ∧ (∀ su, sign ("https://" ++ domain ++ "/" ++ s3Key) = .ok su →
      (Publish sign now pubFn cancelAt ctxErr t0 s3Key domain).message =
        some ("\x7b\"s3_key\":\"" ++ jsonEscape s3Key ++ "\",\"timestamp\":\""
          ++ jsonEscape (formatRFC3339 now) ++ "\",\"event_type\":\""
          ++ jsonEscape "human_detected" ++ "\",\"cloudfront_url\":\""
          ++ jsonEscape su ++ "\"\x7d"))
    ∧ (isISO8601UTC (formatRFC3339 now) = true →
      ∀ su, sign ("https://" ++ domain ++ "/" ++ s3Key) = .ok su →
      ∃ ts, (Publish sign now pubFn cancelAt ctxErr t0 s3Key domain).message =
        some (videoNotificationJSON s3Key ts "human_detected" su)
        ∧ isISO8601UTC ts = true) := by
  refine ⟨?_, ?_, ?_⟩
  · intro e he
    simp [Publish, he]
  · intro su hsu
    simp [Publish, hsu, videoNotificationJSON]
  · intro hiso su hsu
    exact ⟨formatRFC3339 now, by simp [Publish, hsu], hiso⟩

theorem publish_payload_and_sign_failure_witness :
    (Publish (fun _ => .error (.base "no key")) 1735689600 (fun _ => none)
        none (.base "ctx") 0 "videos/x.mp4" "d.cloudfront.net" =
      { message := none
        res := .error (.wrap "failed to sign CloudFront URL" (.base "no key")) })
    ∧ ((Publish (fun _ => .ok "https://d.cloudfront.net/videos/x.mp4?sig")
        1735689600 (fun _ => none) none (.base "ctx") 0 "videos/x.mp4"
        "d.cloudfront.net").message =
      some ("\x7b\"s3_key\":\"" ++ jsonEscape "videos/x.mp4" ++ "\",\"timestamp\":\""
        ++ jsonEscape (formatRFC3339 1735689600) ++ "\",\"event_type\":\""
        ++ jsonEscape "human_detected" ++ "\",\"cloudfront_url\":\""
        ++ jsonEscape "https://d.cloudfront.net/videos/x.mp4?sig" ++ "\"\x7d"))
    ∧ (∃ ts, (Publish (fun _ => .ok "https://d.cloudfront.net/videos/x.mp4?sig")
        1735689600 (fun _ => none) none (.base "ctx") 0 "videos/x.mp4"
        "d.cloudfront.net").message =
        some (videoNotificationJSON "videos/x.mp4" ts "human_detected"
          "https://d.cloudfront.net/videos/x.mp4?sig")
        ∧ isISO8601UTC ts = true) := by
  refine ⟨?_, ?_, ?_⟩
  · exact (publish_payload_and_sign_failure (fun _ => .error (.base "no key"))
      1735689600 (fun _ => none) none (.base "ctx") 0 "videos/x.mp4"
      "d.cloudfront.net").1 (.base "no key") rfl
  · exact (publish_payload_and_sign_failure
      (fun _ => .ok "https://d.cloudfront.net/videos/x.mp4?sig")
      1735689600 (fun _ => none) none (.base "ctx") 0 "videos/x.mp4"
      "d.cloudfront.net").2.1 "https://d.cloudfront.net/videos/x.mp4?sig" rfl
  · exact (publish_payload_and_sign_failure
      (fun _ => .ok "https://d.cloudfront.net/videos/x.mp4?sig")
      1735689600 (fun _ => none) none (.base "ctx") 0 "videos/x.mp4"
      "d.cloudfront.net").2.2 (by decide)
      "https://d.cloudfront.net/videos/x.mp4?sig" rfl
